import Mathlib

/-!
Verification of the storage-provisioning orchestrator of P9Debian
(`src/Ultima-interactive.py`, with the earlier revision `src/Ult-int.py`
where claims cite it).  The Python functions `run_command`,
`step_lvm_setup` and `step_fstab` are shallowly embedded: external-command
outcomes and filesystem state become explicit environment records, and
each step returns its boolean result together with the list of external
commands / file operations it issued, in order.
-/

set_option maxRecDepth 100000

namespace P9Debian

/-- Result record of `subprocess.run`, as used by `run_command`
(`returncode`, `stdout`, `stderr`). -/
structure CompletedProcess where
  returncode : Int
  stdout : String
  stderr : String
deriving DecidableEq

/-- Outcome of the underlying `subprocess.run` call inside `run_command`:
it either completes with a return code and captured output, or raises
`TimeoutExpired`, `FileNotFoundError`, or some other exception. -/
inductive ProcOutcome where
  | completed (r : CompletedProcess)
  | timedOut
  | notFound
  | failedOther
deriving DecidableEq

/-- Embedding of `run_command` (src/Ultima-interactive.py:106-229).
`userMissing` models the `KeyError` branch of the `user` lookup
(`pwd.getpwnam`), which returns `None`.  When the process completes:
a zero return code returns the `CompletedProcess`; a non-zero return
code with `check=True` raises `CalledProcessError` (via
`result.check_returncode()` or `subprocess.run(check=True)` itself),
which the handler turns into `None`; with `check=False` it returns
`None` directly.  `TimeoutExpired`, `FileNotFoundError` and any other
exception are each caught and return `None`. -/
def run_command (check : Bool) (userMissing : Bool) (outcome : ProcOutcome) :
    Option CompletedProcess :=
  if userMissing then none
  else
    match outcome with
    | .completed r =>
        if r.returncode = 0 then some r
        else if check then none  -- CalledProcessError raised, caught, returns None
        else none                -- check=False: failure is not exceptional, returns None
    | .timedOut => none
    | .notFound => none
    | .failedOther => none

/-- The bounded readiness poll of `step_lvm_setup`
(src/Ultima-interactive.py:1163-1174):
`for attempt in range(maxAttempts): if pred(attempt): break; sleep(1)`.
Returns whether the predicate ever held together with the number of
predicate evaluations performed.  `pred i` is the value of
`LV_DEVICE_PATH.is_block_device()` at attempt `i`. -/
def awaitAux (pred : Nat → Bool) (start : Nat) : Nat → Bool × Nat
  | 0 => (false, 0)
  | n + 1 =>
      if pred start then (true, 1)
      else
        let r := awaitAux pred (start + 1) n
        (r.1, r.2 + 1)

/-- `awaitPoll pred maxAttempts = (ready?, number of evaluations)`. -/
def awaitPoll (pred : Nat → Bool) (maxAttempts : Nat) : Bool × Nat :=
  awaitAux pred 0 maxAttempts

/-! ## Configuration constants (src/Ultima-interactive.py:28-42) -/

/-- `VG_NAME = "data_vg"`. -/
def VG_NAME : String := "data_vg"

/-- `LV_NAME = "data_lv"`. -/
def LV_NAME : String := "data_lv"

/-- `LV_DEVICE_PATH = Path(f"/dev/{VG_NAME}/{LV_NAME}")`. -/
def LV_DEVICE_PATH : String := "/dev/" ++ VG_NAME ++ "/" ++ LV_NAME

/-- `LVM_MOUNT_POINT = Path("/mnt/data")`. -/
def LVM_MOUNT_POINT : String := "/mnt/data"

/-- Python's `needle in hay` substring test on strings, used by the
`str(LV_DEVICE_PATH) in lvs_result.stdout` check. -/
def substrOccurs (needle : String) (hay : String) : Bool :=
  go needle.data hay.data
where
  go (n : List Char) : List Char → Bool
    | [] => n.isEmpty
    | c :: rest => n.isPrefixOf (c :: rest) || go n rest

/-! ## `step_lvm_setup` (src/Ultima-interactive.py:1083-1213) -/

/-- One external command issued by `step_lvm_setup`, in program order.
`pollLvNode evals ok` records the bounded wait for the LV device node
(a loop of `is_block_device()` probes, not a subprocess) with the number
of probes performed and whether the node appeared. -/
inductive Cmd where
  | lvsCheck          -- lvs --noheadings -o lv_path data_vg/data_lv
  | vgchangeAy        -- lvm vgchange -ay data_vg
  | daemonReload      -- systemctl daemon-reload
  | nbdStart          -- systemctl start qemu-nbd-connect.service
  | journalctl        -- journalctl -u qemu-nbd-connect.service ...
  | nbdStop           -- systemctl stop qemu-nbd-connect.service
  | lsblk             -- lsblk
  | pvcreate          -- pvcreate -vvv -ff -y /dev/nbd0
  | vgcreate          -- vgcreate -y data_vg /dev/nbd0
  | lvcreate          -- lvcreate -y -l 100%FREE -n data_lv data_vg
  | pollLvNode (evals : Nat) (ok : Bool)
  | udevadmSettle     -- udevadm settle
  | mkfsExt4          -- mkfs.ext4 -F /dev/data_vg/data_lv
  | pvs               -- pvs (diagnostic)
  | vgs               -- vgs (diagnostic)
  | lvsStatus         -- lvs (diagnostic)
deriving DecidableEq

/-- Environment of one `step_lvm_setup` execution: the outcome each
external probe / command would have if issued. -/
structure LvmEnv where
  /-- `run_command(['lvs', ...], check=False)`: `none` when it returned
  `None`, otherwise the `CompletedProcess`. -/
  lvsResult : Option CompletedProcess
  /-- `LV_DEVICE_PATH.is_block_device()` at the initial fallback check. -/
  lvDevIsBlock : Bool
  /-- `systemctl daemon-reload` succeeds. -/
  daemonReloadOk : Bool
  /-- `systemctl start qemu-nbd-connect.service` succeeds. -/
  nbdStartOk : Bool
  /-- `Path(NBD_DEVICE).is_block_device()` after the NBD start. -/
  nbdDevIsBlock : Bool
  /-- `pvcreate` succeeds. -/
  pvcreateOk : Bool
  /-- `vgcreate` succeeds. -/
  vgcreateOk : Bool
  /-- `lvcreate` succeeds. -/
  lvcreateOk : Bool
  /-- `LV_DEVICE_PATH.is_block_device()` at poll attempt `i` of the
  15-attempt wait loop. -/
  lvNodeAt : Nat → Bool
  /-- `mkfs.ext4` succeeds. -/
  mkfsOk : Bool

/-- The idempotency condition of src/Ultima-interactive.py:1093:
`lvs_result and lvs_result.returncode == 0 and str(LV_DEVICE_PATH) in
lvs_result.stdout`. -/
def lvsReportsLv (env : LvmEnv) : Bool :=
  match env.lvsResult with
  | some r => r.returncode = 0 && substrOccurs LV_DEVICE_PATH r.stdout
  | none => false

/-- Result of `step_lvm_setup`: its boolean return value, the ordered
external commands issued, and whether the raw-device-node fallback
warning (`lvs check failed, but block device exists`) was printed. -/
structure LvmStepResult where
  ok : Bool
  trace : List Cmd
  fallbackWarn : Bool
deriving DecidableEq

/-- The `try`-block of LVM creation commands
(src/Ultima-interactive.py:1147-1192): `pvcreate`, `vgcreate`,
`lvcreate`, the 15-attempt poll for the LV device node, `udevadm settle`,
`mkfs.ext4`; each failure raises `RuntimeError` (caught by the caller),
so no later command of the sequence runs. -/
def lvmCreate (env : LvmEnv) : Bool × List Cmd :=
  if !env.pvcreateOk then (false, [.pvcreate])
  else if !env.vgcreateOk then (false, [.pvcreate, .vgcreate])
  else if !env.lvcreateOk then (false, [.pvcreate, .vgcreate, .lvcreate])
  else
    let p := awaitPoll env.lvNodeAt 15
    if !p.1 then
      -- node never appeared: lsblk diagnostic, then RuntimeError
      (false, [.pvcreate, .vgcreate, .lvcreate, .pollLvNode p.2 false, .lsblk])
    else if !env.mkfsOk then
      (false, [.pvcreate, .vgcreate, .lvcreate, .pollLvNode p.2 true,
               .udevadmSettle, .mkfsExt4])
    else
      (true, [.pvcreate, .vgcreate, .lvcreate, .pollLvNode p.2 true,
              .udevadmSettle, .mkfsExt4])

/-- Embedding of `step_lvm_setup` (src/Ultima-interactive.py:1083-1213).
Control flow: the `lvs` idempotency check and raw-device fallback; then
daemon-reload (non-fatal), transient NBD start (fatal on failure, with
journalctl diagnostic and a stop attempt), the NBD device-node
double-check (fatal, with lsblk and a stop attempt), the creation
`try`-block, `pvs`/`vgs`/`lvs` diagnostics on creation failure, and the
unconditional `systemctl stop` of the transient NBD service. -/
def step_lvm_setup (env : LvmEnv) : LvmStepResult :=
  if lvsReportsLv env then
    -- LV already exists according to lvs: ensure VG active, return True
    ⟨true, [.lvsCheck, .vgchangeAy], false⟩
  else if env.lvDevIsBlock then
    -- fallback: lvs check failed but block device exists; warn, return True
    ⟨true, [.lvsCheck, .vgchangeAy], true⟩
  else
    let t1 : List Cmd := [.lvsCheck, .daemonReload, .nbdStart]
    if !env.nbdStartOk then
      ⟨false, t1 ++ [.journalctl, .nbdStop], false⟩
    else if !env.nbdDevIsBlock then
      ⟨false, t1 ++ [.lsblk, .nbdStop], false⟩
    else
      let c := lvmCreate env
      ⟨c.1,
       t1 ++ c.2 ++ (if c.1 then [] else [.pvs, .vgs, .lvsStatus]) ++ [.nbdStop],
       false⟩

/-- The destructive volume-manager commands of the claim set:
`pvcreate`, `vgcreate`, `lvcreate`, `mkfs.ext4`. -/
def destructive (c : Cmd) : Bool :=
  match c with
  | .pvcreate | .vgcreate | .lvcreate | .mkfsExt4 => true
  | _ => false

/-- The five steps of the one-time creation sequence (the four
destructive commands plus the bounded LV-node poll). -/
def creationStep (c : Cmd) : Bool :=
  match c with
  | .pvcreate | .vgcreate | .lvcreate | .pollLvNode _ _ | .mkfsExt4 => true
  | _ => false

/-- The main loop of `main()` (src/Ultima-interactive.py:3359-3412):
runs steps in order and `break`s out (run failed) at the first step that
returns falsy.  Given the list of step results it returns whether the
run succeeded and how many steps executed. -/
def mainLoop : List Bool → Bool × Nat
  | [] => (true, 0)
  | b :: rest =>
      if b then
        let r := mainLoop rest
        (r.1, r.2 + 1)
      else (false, 1)

/-! ## `step_fstab` (src/Ultima-interactive.py:1215-1362) -/

/-- Splitter on whitespace runs over the character list (the model of
Python's `str.split()`); `acc` holds the current token reversed. -/
def splitWs : List Char → List Char → List String
  | [], acc => if acc.isEmpty then [] else [⟨acc.reverse⟩]
  | c :: rest, acc =>
      if c.isWhitespace then
        if acc.isEmpty then splitWs rest []
        else ⟨acc.reverse⟩ :: splitWs rest []
      else splitWs rest (c :: acc)

/-- Python's `str.split()` with no argument: split on runs of
whitespace, discarding empty pieces. -/
def pysplit (s : String) : List String :=
  splitWs s.data []

/-- Splitter at newline characters over the character list. -/
def splitNl : List Char → List Char → List String
  | [], acc => [⟨acc.reverse⟩]
  | c :: rest, acc =>
      if c = '\n' then ⟨acc.reverse⟩ :: splitNl rest []
      else splitNl rest (c :: acc)

/-- Python's `str.splitlines()` for `\n`-separated text, as read from
`/etc/fstab` (a possible empty piece after a trailing newline is
skipped by the scan as a blank line). -/
def pylines (s : String) : List String :=
  splitNl s.data []

/-- Python's `str.strip()`: remove leading and trailing whitespace. -/
def pystrip (s : String) : String :=
  ⟨((s.data.dropWhile Char.isWhitespace).reverse.dropWhile
      Char.isWhitespace).reverse⟩

/-- Python's `str.startswith(p)`. -/
def pyStartsWith (s p : String) : Bool :=
  p.data.isPrefixOf s.data

/-- Python's `str.endswith(p)`. -/
def pyEndsWith (s p : String) : Bool :=
  p.data.reverse.isPrefixOf s.data.reverse

/-- `fstab_entry_line` of src/Ultima-interactive.py:1251 (fields are
separated by four spaces). -/
def fstabEntryLine : String :=
  LV_DEVICE_PATH ++ "    " ++ LVM_MOUNT_POINT ++
    "    ext4    defaults,nofail,_netdev    0    2"

/-- `fstab_comment_line` of src/Ultima-interactive.py:1252. -/
def fstabCommentLine : String :=
  "# Entry added by AVF installer for LVM data volume (" ++ VG_NAME ++ "/" ++ LV_NAME ++ ")"

/-- Per-line classification of the fstab scan loop
(src/Ultima-interactive.py:1265-1288): skip blanks and comments, split
the stripped line on whitespace, and compare the first two fields with
the managed device and mountpoint. -/
inductive LineClass where
  | exactMatch    -- fstab_device == LV_DEVICE_PATH and fstab_mountpoint == LVM_MOUNT_POINT
  | conflictMp    -- mountpoint claimed by a different device
  | conflictDev   -- device mounted at a different point
  | skip
deriving DecidableEq

/-- Classification of one fstab line by the scan loop. -/
def classifyLine (line : String) : LineClass :=
  let clean := pystrip line
  if clean = "" || pyStartsWith clean "#" then .skip
  else
    match pysplit clean with
    | d :: m :: _ =>
        if d = LV_DEVICE_PATH ∧ m = LVM_MOUNT_POINT then .exactMatch
        else if m = LVM_MOUNT_POINT ∧ d ≠ LV_DEVICE_PATH then .conflictMp
        else if d = LV_DEVICE_PATH ∧ m ≠ LVM_MOUNT_POINT then .conflictDev
        else .skip
    | _ => .skip

/-- Overall outcome of the scan: the loop `break`s at the first line
classified as an exact match or as a conflict. -/
inductive ScanResult where
  | entryFound
  | conflictFound
  | absent
deriving DecidableEq

/-- The scan loop over the lines of the fstab file: first
non-`skip` classification wins (the loop `break`s there). -/
def scanLines : List String → ScanResult
  | [] => .absent
  | l :: rest =>
      match classifyLine l with
      | .exactMatch => .entryFound
      | .conflictMp => .conflictFound
      | .conflictDev => .conflictFound
      | .skip => scanLines rest

/-- Scan of the whole fstab content. -/
def scanFstab (content : String) : ScanResult :=
  scanLines (pylines content)

/-- `content += "\n"` when the file is non-empty and does not end in a
newline (src/Ultima-interactive.py:1300-1301). -/
def ensureNl (c : String) : String :=
  if c ≠ "" ∧ ¬ pyEndsWith c "\n" then c ++ "\n" else c

/-- The text appended to the fstab file:
`f"\n{fstab_comment_line}\n{fstab_entry_line}\n"`
(src/Ultima-interactive.py:1302). -/
def fstabAppendedBlock : String :=
  "\n" ++ fstabCommentLine ++ "\n" ++ fstabEntryLine ++ "\n"

/-- `new_content` written on the absent path
(src/Ultima-interactive.py:1300-1302). -/
def appendEntry (c : String) : String :=
  ensureNl c ++ fstabAppendedBlock

/-- One file operation or external command issued by `step_fstab`,
in program order. -/
inductive FOp where
  | backupFstab            -- shutil.copy2(fstab_file, fstab_file.bak-<timestamp>)
  | writeFstab (c : String) -- fstab_file.write_text(new_content)
  | vgchangeAy             -- lvm vgchange -ay data_vg (check=False)
  | mountCmd               -- mount /mnt/data
  | mountpointChk          -- mountpoint -q /mnt/data (check=False)
  | lvsStatusCmd           -- lvs data_vg/data_lv (diagnostic, Ult-int only)
  | diagCmds               -- lsblk/tail/dmesg diagnostics (Ult-int only)
deriving DecidableEq

/-- Environment of one `step_fstab` execution. -/
structure FstabEnv where
  /-- `mkdir`/`getpwnam`/`getgrnam`/`chown` of the mount point all
  succeed (any failure returns `False` before the fstab section). -/
  dirSetupOk : Bool
  /-- `fstab_file.is_file()` (Ultima-interactive); for Ult-int, whether
  `read_text()` succeeds. -/
  fstabIsFile : Bool
  /-- The text of `/etc/fstab`. -/
  content : String
  /-- `shutil.copy2` backup succeeds (an exception returns `False`). -/
  backupOk : Bool
  /-- `fstab_file.write_text` succeeds (an exception returns `False`). -/
  writeOk : Bool
  /-- `lvm vgchange -ay data_vg` succeeds (run with check=False). -/
  vgchangeOk : Bool
  /-- `LV_DEVICE_PATH.is_block_device()` at the mount test. -/
  lvDevIsBlock : Bool
  /-- `mount /mnt/data` succeeds. -/
  mountOk : Bool
  /-- `mountpoint -q /mnt/data` succeeds (already mounted). -/
  mountpointOk : Bool

/-- Result of `step_fstab`: its boolean return value and the ordered
file operations / external commands issued. -/
structure FstabResult where
  ok : Bool
  ops : List FOp
deriving DecidableEq

/-- The mount-test phase of `step_fstab`
(src/Ultima-interactive.py:1318-1352): activate the VG (check=False);
if that succeeded and the LV node exists, try `mount /mnt/data`; on
mount failure check `mountpoint -q` and warn either way.  Every branch
falls through to `return True`. -/
def mountPhase (env : FstabEnv) (pre : List FOp) : FstabResult :=
  let t := pre ++ [FOp.vgchangeAy]
  if env.vgchangeOk ∧ env.lvDevIsBlock then
    let t := t ++ [FOp.mountCmd]
    if env.mountOk then ⟨true, t⟩
    else ⟨true, t ++ [FOp.mountpointChk]⟩
  else ⟨true, t⟩

/-- Embedding of `step_fstab` (src/Ultima-interactive.py:1215-1362).
Mount-point setup failure and a missing fstab file return `False`; a
scan conflict returns `False` without touching the file; on the absent
path the file is backed up (`shutil.copy2`) and then rewritten with the
appended entry, a failure of either returning `False`; finally the
best-effort mount test runs and the step returns `True`. -/
def step_fstab (env : FstabEnv) : FstabResult :=
  if ¬ env.dirSetupOk then ⟨false, []⟩
  else if ¬ env.fstabIsFile then ⟨false, []⟩
  else
    match scanFstab env.content with
    | .conflictFound => ⟨false, []⟩
    | .entryFound => mountPhase env []
    | .absent =>
        if ¬ env.backupOk then ⟨false, []⟩
        else if ¬ env.writeOk then ⟨false, [FOp.backupFstab]⟩
        else mountPhase env [FOp.backupFstab, FOp.writeFstab (appendEntry env.content)]

namespace UltInt

/-! ### The earlier revision `src/Ult-int.py` (step_fstab, lines 996-1078) -/

/-- `fstab_entry_line` of src/Ult-int.py:1019 (fields are separated by
three spaces). -/
def fstabEntryLine3 : String :=
  LV_DEVICE_PATH ++ "   " ++ LVM_MOUNT_POINT ++
    "   ext4   defaults,nofail,_netdev   0   2"

/-- The scan loop of src/Ult-int.py:1027-1036: `entry_exists` becomes
true iff some non-comment line has the managed device and mountpoint as
its first two fields; the conflict branch only logs a warning and does
not stop the loop or the step. -/
def entryExists (content : String) : Bool :=
  (pylines content).any fun line =>
    !(pyStartsWith (pystrip line) "#") &&
      match pysplit line with
      | d :: m :: _ => d = LV_DEVICE_PATH && m = LVM_MOUNT_POINT
      | _ => false

/-- `new_content` of src/Ult-int.py:1041-1043: the old content
(newline-terminated) followed directly by the comment line and the
entry line — no blank separator line and no backup copy. -/
def appendEntry (c : String) : String :=
  ensureNl c ++ (fstabCommentLine ++ "\n" ++ fstabEntryLine3 ++ "\n")

/-- Embedding of `step_fstab` of src/Ult-int.py:996-1078.  After the
(unconditional) append when the entry is missing, the step activates
the VG (check=False, `lvs` diagnostic on failure), then runs
`mount /mnt/data` with check=True; a mount failure runs diagnostics and
returns `False` — the live mount is fatal in this revision. -/
def step_fstab (env : FstabEnv) : FstabResult :=
  if ¬ env.dirSetupOk then ⟨false, []⟩
  else if ¬ env.fstabIsFile then ⟨false, []⟩
  else if ¬ entryExists env.content ∧ ¬ env.writeOk then ⟨false, []⟩
  else
    let wrote : List FOp :=
      if entryExists env.content then []
      else [FOp.writeFstab (appendEntry env.content)]
    let t := wrote ++ [FOp.vgchangeAy] ++
      (if env.vgchangeOk then [] else [FOp.lvsStatusCmd]) ++ [FOp.mountCmd]
    if env.mountOk then ⟨true, t⟩
    else ⟨false, t ++ [FOp.mountpointChk, FOp.diagCmds]⟩

end UltInt

/-! ## Concrete environments used by witnesses and counterexamples -/

/-- Environment where `lvs` reports the managed LV. -/
def envLvsReports : LvmEnv :=
  ⟨some ⟨0, "  /dev/data_vg/data_lv\n", ""⟩, false, true, true, true,
   true, true, true, (fun _ => false), true⟩

/-- Environment where `lvs` returned `None` but the LV device node
exists as a block device. -/
def envFallback : LvmEnv :=
  ⟨none, true, true, true, true, true, true, true, (fun _ => false), true⟩

/-- Environment entering the one-time creation sequence with every step
succeeding (the LV node appears at the first poll). -/
def envCreateAll : LvmEnv :=
  ⟨none, false, true, true, true, true, true, true, (fun _ => true), true⟩

/-- Environment entering the creation sequence where `vgcreate` fails. -/
def envCreateVgFail : LvmEnv :=
  ⟨none, false, true, true, true, true, false, true, (fun _ => true), true⟩

/-- fstab environment holding the spec's literal example line
`/dev/other 0 /mnt/data ext4 defaults 0 2`, everything else healthy. -/
def envFstabSpecLine : FstabEnv :=
  ⟨true, true, "/dev/other 0 /mnt/data ext4 defaults 0 2\n",
   true, true, true, true, true, true⟩

/-- fstab environment holding a genuine mountpoint conflict
(`/dev/other /mnt/data ext4 defaults 0 2`), everything else healthy. -/
def envFstabConflict : FstabEnv :=
  ⟨true, true, "/dev/other /mnt/data ext4 defaults 0 2\n",
   true, true, true, true, true, true⟩

/-- fstab environment with an unrelated pre-existing file. -/
def envFstabAbsent : FstabEnv :=
  ⟨true, true, "# header\n/dev/sda1 / ext4 defaults 0 1\n",
   true, true, true, true, true, true⟩

/-- fstab environment with an unrelated pre-existing file where the
live mount fails. -/
def envFstabMountFail : FstabEnv :=
  ⟨true, true, "# header\n/dev/sda1 / ext4 defaults 0 1\n",
   true, true, true, true, false, true⟩

/-- fstab environment whose table already holds the Ult-int entry line
and where the live mount fails. -/
def envUltIntMountFail : FstabEnv :=
  ⟨true, true, UltInt.fstabEntryLine3 ++ "\n",
   true, true, true, true, false, true⟩

/-! ## Helper lemmas -/

theorem awaitAux_spec (pred : Nat → Bool) :
    ∀ (n start : Nat), (awaitAux pred start n).2 ≤ n ∧
      ((∀ i, pred i = false) → awaitAux pred start n = (false, n)) := by
  intro n
  induction n with
  | zero => intro start; exact ⟨Nat.le_refl 0, fun _ => rfl⟩
  | succ n ih =>
      intro start
      constructor
      · by_cases h : pred start
        · simp [awaitAux, h]
        · simp only [awaitAux, h, if_false, Bool.false_eq_true]
          exact Nat.succ_le_succ (ih (start + 1)).1
      · intro hfalse
        simp only [awaitAux, hfalse start, Bool.false_eq_true, if_false]
        rw [(ih (start + 1)).2 hfalse]

/-! ## Claim theorems -/

/-- C5: the readiness-polling loop is bounded and total: for any
predicate and any maximum attempt count `N` it performs at most `N`
predicate evaluations (and, being a total function, always terminates
and never raises); with an always-false predicate it reports failure
(`TimedOut`) after exactly `N` evaluations — in particular exactly 5
for `N = 5`.  `step_lvm_setup` instantiates it as
`awaitPoll env.lvNodeAt 15`, the 15-attempt, 1-second wait for the
logical-volume device node. -/
theorem awaitPoll_bounded_total (pred : Nat → Bool) (N : Nat) :
    (awaitPoll pred N).2 ≤ N ∧
      ((∀ i, pred i = false) → awaitPoll pred N = (false, N)) :=
  ⟨(awaitAux_spec pred N 0).1, fun h => (awaitAux_spec pred N 0).2 h⟩

/-- C5 witness: with the always-false predicate and 5 attempts, the
poll reports failure after exactly 5 evaluations. -/
theorem awaitPoll_bounded_total_witness :
    (awaitPoll (fun _ => false) 5).2 ≤ 5 ∧
      awaitPoll (fun _ => false) 5 = (false, 5) :=
  ⟨(awaitPoll_bounded_total (fun _ => false) 5).1,
   (awaitPoll_bounded_total (fun _ => false) 5).2 (fun _ => rfl)⟩

/-- C9: `run_command` is total and its result shape is an invariant:
for every combination of `check`, user-lookup outcome, and subprocess
outcome it either returns `None` or a completed process whose exit code
is 0; every exception (`CalledProcessError`, `TimeoutExpired`,
`FileNotFoundError`, anything else) is caught and turned into `None`,
so no caller can observe a non-zero `returncode` on a non-`None`
result. -/
theorem run_command_result_shape (check userMissing : Bool)
    (outcome : ProcOutcome) :
    run_command check userMissing outcome = none ∨
      ∃ r, run_command check userMissing outcome = some r ∧ r.returncode = 0 := by
  unfold run_command
  by_cases hu : userMissing = true
  · simp [hu]
  · simp only [Bool.not_eq_true] at hu
    cases outcome with
    | completed r =>
        by_cases hr : r.returncode = 0
        · exact Or.inr ⟨r, by simp [hu, hr], hr⟩
        · cases check <;> simp [hu, hr]
    | timedOut => simp [hu]
    | notFound => simp [hu]
    | failedOther => simp [hu]

/-- C10: the fstab scan is decided by the first non-skipped line: if
every earlier line is skipped (comment, blank, or unrelated entry) and
a line matches the managed device and mountpoint exactly, the scan
reports the entry as found regardless of everything after that line —
in particular a conflicting line later in the file is never examined. -/
theorem scanLines_first_match_wins (pre suf : List String) (l : String)
    (hpre : ∀ x ∈ pre, classifyLine x = .skip)
    (hl : classifyLine l = .exactMatch) :
    scanLines (pre ++ l :: suf) = .entryFound := by
  induction pre with
  | nil => simp [scanLines, hl]
  | cons p rest ih =>
      have hp : classifyLine p = .skip := hpre p (List.mem_cons_self p rest)
      simp only [List.cons_append, scanLines, hp]
      exact ih (fun x hx => hpre x (List.mem_cons_of_mem p hx))

/-- C10 witness: with a comment line first, the exact managed entry
second, and a conflicting line (`/dev/other /mnt/data ...`) third, the
scan reports the entry as found. -/
theorem scanLines_first_match_wins_witness :
    scanLines ["# comment", fstabEntryLine,
               "/dev/other /mnt/data ext4 defaults 0 2"] = .entryFound :=
  scanLines_first_match_wins ["# comment"]
    ["/dev/other /mnt/data ext4 defaults 0 2"] fstabEntryLine
    (by decide) (by decide)

/-- C2 (amended): whenever the fstab scan of `Ultima-interactive.py`
classifies a line as a conflict, `step_fstab` returns failure and
issues no file operation at all — no backup and no write. -/
theorem fstab_conflict_aborts (env : FstabEnv)
    (h : scanFstab env.content = .conflictFound) :
    (step_fstab env).ok = false ∧ (step_fstab env).ops = [] := by
  unfold step_fstab
  by_cases h1 : env.dirSetupOk
  · by_cases h2 : env.fstabIsFile
    · simp [h1, h2, h]
    · simp [h1, h2]
  · simp [h1]

/-- C2 witness: a table whose first entry claims `/mnt/data` for
`/dev/other` (device and mountpoint as the first two fields) is
classified as a conflict and the step fails without touching the
file. -/
theorem fstab_conflict_aborts_witness :
    (step_fstab envFstabConflict).ok = false ∧
      (step_fstab envFstabConflict).ops = [] :=
  fstab_conflict_aborts envFstabConflict (by decide)

/-- C2 counterexample: the spec's literal example line
`/dev/other 0 /mnt/data ext4 defaults 0 2` is NOT classified as a
conflict (its second whitespace field is `0`, not the mountpoint):
`step_fstab` classifies the table as absent, modifies the file (backup
plus append) and returns success.  Moreover, in the cited revision
`src/Ult-int.py`, even a genuine mountpoint conflict does not stop the
step: the entry is appended and the step succeeds. -/
theorem fstab_conflict_claim_cex :
    scanFstab envFstabSpecLine.content = .absent ∧
      (step_fstab envFstabSpecLine).ok = true ∧
      (step_fstab envFstabSpecLine).ops =
        [FOp.backupFstab,
         FOp.writeFstab (appendEntry envFstabSpecLine.content),
         FOp.vgchangeAy, FOp.mountCmd] ∧
      (UltInt.step_fstab envFstabConflict).ok = true ∧
      FOp.writeFstab (UltInt.appendEntry envFstabConflict.content) ∈
        (UltInt.step_fstab envFstabConflict).ops := by
  refine ⟨by decide, by decide, by decide, by decide, by decide⟩

/-- Helper: the creation `try`-block issues neither the NBD stop nor the
NBD start command. -/
theorem lvmCreate_count_nbd (env : LvmEnv) :
    (lvmCreate env).2.count Cmd.nbdStop = 0 ∧
      Cmd.nbdStart ∉ (lvmCreate env).2 := by
  unfold lvmCreate
  cases h1 : env.pvcreateOk
  · simp
  · cases h2 : env.vgcreateOk
    · simp
    · cases h3 : env.lvcreateOk
      · simp
      · cases h4 : (awaitPoll env.lvNodeAt 15).1
        · simp [h4]
        · cases h5 : env.mkfsOk <;> simp [h4, h5]

/-- Helper: the mount-test phase of `step_fstab` always returns `True`,
only extends the operation list, and always issues the VG activation. -/
theorem mountPhase_spec (env : FstabEnv) (pre : List FOp) :
    (mountPhase env pre).ok = true ∧
      (∃ tail, (mountPhase env pre).ops = pre ++ tail) ∧
      FOp.vgchangeAy ∈ (mountPhase env pre).ops := by
  unfold mountPhase
  by_cases h : env.vgchangeOk = true ∧ env.lvDevIsBlock = true
  · by_cases hm : env.mountOk = true
    · exact ⟨by simp [h, hm], ⟨[FOp.vgchangeAy, FOp.mountCmd], by simp [h, hm]⟩,
        by simp [h, hm]⟩
    · exact ⟨by simp [h, hm],
        ⟨[FOp.vgchangeAy, FOp.mountCmd, FOp.mountpointChk], by simp [h, hm]⟩,
        by simp [h, hm]⟩
  · exact ⟨by simp [h], ⟨[FOp.vgchangeAy], by simp [h]⟩, by simp [h]⟩

/-- C1: whenever the `lvs` query reports the expected
`data_vg/data_lv` path, `step_lvm_setup` issues none of the destructive
commands (`pvcreate`, `vgcreate`, `lvcreate`, `mkfs.ext4`) — its whole
trace is the `lvs` check plus a `vgchange -ay` re-activation — and it
returns success.  Hence a second provisioning run after a successful
first one (where `lvs` reports the volume just created) performs zero
destructive volume-manager actions in this step. -/
theorem lvm_skip_when_lvs_reports (env : LvmEnv)
    (h : lvsReportsLv env = true) :
    step_lvm_setup env = ⟨true, [.lvsCheck, .vgchangeAy], false⟩ ∧
      (step_lvm_setup env).trace.filter destructive = [] := by
  have h1 : step_lvm_setup env = ⟨true, [.lvsCheck, .vgchangeAy], false⟩ := by
    unfold step_lvm_setup
    simp [h]
  exact ⟨h1, by rw [h1]; decide⟩

/-- C1 witness: with `lvs` reporting `/dev/data_vg/data_lv`, the step
succeeds and issues no destructive command. -/
theorem lvm_skip_when_lvs_reports_witness :
    step_lvm_setup envLvsReports = ⟨true, [.lvsCheck, .vgchangeAy], false⟩ ∧
      (step_lvm_setup envLvsReports).trace.filter destructive = [] :=
  lvm_skip_when_lvs_reports envLvsReports (by decide)

/-- C8: idempotency-check ambiguity is resolved toward presence: when
the `lvs` query has not reported the volume but the raw device node is
a block device, the step treats the volume as present — it emits the
fallback warning, skips all creation commands and returns success.
Moreover the fallback is consulted only when the primary query has not
reported the volume: when `lvs` reports it, the step's behaviour is
independent of the raw device-node check. -/
theorem lvm_fallback_treats_present (env : LvmEnv) (b : Bool) :
    (lvsReportsLv env = false → env.lvDevIsBlock = true →
      step_lvm_setup env = ⟨true, [.lvsCheck, .vgchangeAy], true⟩ ∧
        (step_lvm_setup env).trace.filter destructive = []) ∧
    (lvsReportsLv env = true →
      step_lvm_setup { env with lvDevIsBlock := b } = step_lvm_setup env) := by
  constructor
  · intro h1 h2
    have hs : step_lvm_setup env = ⟨true, [.lvsCheck, .vgchangeAy], true⟩ := by
      unfold step_lvm_setup
      simp [h1, h2]
    exact ⟨hs, by rw [hs]; decide⟩
  · intro h
    have h' : lvsReportsLv { env with lvDevIsBlock := b } = true := h
    unfold step_lvm_setup
    simp [h, h']

/-- C8 witness: `lvs` returned `None`, the device node exists: the step
warns, skips creation and succeeds. -/
theorem lvm_fallback_treats_present_witness :
    step_lvm_setup envFallback = ⟨true, [.lvsCheck, .vgchangeAy], true⟩ ∧
      (step_lvm_setup envFallback).trace.filter destructive = [] :=
  (lvm_fallback_treats_present envFallback true).1 (by decide) (by decide)

/-- C3: guaranteed release of the transient NBD activation: in every
execution in which the transient NBD start was issued and succeeded
(the creation path), the trace is the start prefix — which contains no
stop — followed by a remainder containing the stop command exactly
once, whether the creation sequence succeeds, fails, or raises. -/
theorem nbd_transient_stop_exactly_once (env : LvmEnv)
    (hstart : env.nbdStartOk = true)
    (hmem : Cmd.nbdStart ∈ (step_lvm_setup env).trace) :
    ∃ rest, (step_lvm_setup env).trace =
        [Cmd.lvsCheck, Cmd.daemonReload, Cmd.nbdStart] ++ rest ∧
      rest.count Cmd.nbdStop = 1 := by
  by_cases h1 : lvsReportsLv env = true
  · exfalso
    rw [show step_lvm_setup env = ⟨true, [.lvsCheck, .vgchangeAy], false⟩ from by
      unfold step_lvm_setup; simp [h1]] at hmem
    simp at hmem
  · cases h2 : env.lvDevIsBlock
    · cases h3 : env.nbdDevIsBlock
      · refine ⟨[Cmd.lsblk, Cmd.nbdStop], ?_, by decide⟩
        unfold step_lvm_setup
        simp [h1, h2, hstart, h3]
      · refine ⟨(lvmCreate env).2 ++
          (if (lvmCreate env).1 then [] else [.pvs, .vgs, .lvsStatus]) ++
          [Cmd.nbdStop], ?_, ?_⟩
        · unfold step_lvm_setup
          simp [h1, h2, hstart, h3]
        · rcases lvmCreate_count_nbd env with ⟨hc, -⟩
          cases h4 : (lvmCreate env).1 <;>
            simp [List.count_append, hc, List.count_cons]
    · exfalso
      rw [show step_lvm_setup env = ⟨true, [.lvsCheck, .vgchangeAy], true⟩ from by
        unfold step_lvm_setup; simp [h1, h2]] at hmem
      simp at hmem

/-- C3 witness: a creation run in which `vgcreate` fails still issues
the stop exactly once after the successful start. -/
theorem nbd_transient_stop_exactly_once_witness :
    ∃ rest, (step_lvm_setup envCreateVgFail).trace =
        [Cmd.lvsCheck, Cmd.daemonReload, Cmd.nbdStart] ++ rest ∧
      rest.count Cmd.nbdStop = 1 :=
  nbd_transient_stop_exactly_once envCreateVgFail (by decide) (by decide)


/-- C4: under the creation path (no LV reported, raw node absent, NBD
started and present), the one-time creation sequence consists of
exactly the five steps `pvcreate`, `vgcreate`, `lvcreate`, the bounded
poll for the LV device node, `mkfs.ext4`, in this order; a failure of
any step stops the sequence there (no later step appears in the trace)
and the step — and with it the whole provisioning run, which stops at
the first failing step without retrying — fails. -/
theorem lvm_creation_order (env : LvmEnv)
    (h1 : lvsReportsLv env = false) (h2 : env.lvDevIsBlock = false)
    (h3 : env.nbdStartOk = true) (h4 : env.nbdDevIsBlock = true) :
    ((step_lvm_setup env).ok = (lvmCreate env).1 ∧
      (step_lvm_setup env).trace.filter creationStep =
        (lvmCreate env).2.filter creationStep) ∧
    (env.pvcreateOk = false →
      (lvmCreate env).2.filter creationStep = [.pvcreate] ∧
        (lvmCreate env).1 = false) ∧
    (env.pvcreateOk = true → env.vgcreateOk = false →
      (lvmCreate env).2.filter creationStep = [.pvcreate, .vgcreate] ∧
        (lvmCreate env).1 = false) ∧
    (env.pvcreateOk = true → env.vgcreateOk = true → env.lvcreateOk = false →
      (lvmCreate env).2.filter creationStep =
          [.pvcreate, .vgcreate, .lvcreate] ∧
        (lvmCreate env).1 = false) ∧
    (env.pvcreateOk = true → env.vgcreateOk = true → env.lvcreateOk = true →
      (awaitPoll env.lvNodeAt 15).1 = false →
      (lvmCreate env).2.filter creationStep =
          [.pvcreate, .vgcreate, .lvcreate,
           .pollLvNode (awaitPoll env.lvNodeAt 15).2 false] ∧
        (lvmCreate env).1 = false) ∧
    (env.pvcreateOk = true → env.vgcreateOk = true → env.lvcreateOk = true →
      (awaitPoll env.lvNodeAt 15).1 = true → env.mkfsOk = false →
      (lvmCreate env).2.filter creationStep =
          [.pvcreate, .vgcreate, .lvcreate,
           .pollLvNode (awaitPoll env.lvNodeAt 15).2 true, .mkfsExt4] ∧
        (lvmCreate env).1 = false) ∧
    (env.pvcreateOk = true → env.vgcreateOk = true → env.lvcreateOk = true →
      (awaitPoll env.lvNodeAt 15).1 = true → env.mkfsOk = true →
      (lvmCreate env).2.filter creationStep =
          [.pvcreate, .vgcreate, .lvcreate,
           .pollLvNode (awaitPoll env.lvNodeAt 15).2 true, .mkfsExt4] ∧
        (lvmCreate env).1 = true) ∧
    (∀ rest, mainLoop (false :: rest) = (false, 1)) := by
  refine ⟨?_, ?_, ?_, ?_, ?_, ?_, ?_, fun rest => rfl⟩
  · constructor
    · unfold step_lvm_setup
      cases hc : (lvmCreate env).1 <;> simp [h1, h2, h3, h4, hc]
    · unfold step_lvm_setup
      cases hc : (lvmCreate env).1 <;>
        simp [h1, h2, h3, h4, hc, List.filter_append, creationStep]
  · intro hp
    unfold lvmCreate
    simp [hp, creationStep]
  · intro hp hv
    unfold lvmCreate
    simp [hp, hv, creationStep]
  · intro hp hv hl
    unfold lvmCreate
    simp [hp, hv, hl, creationStep]
  · intro hp hv hl hpoll
    unfold lvmCreate
    simp [hp, hv, hl, hpoll, creationStep]
  · intro hp hv hl hpoll hm
    unfold lvmCreate
    simp [hp, hv, hl, hpoll, hm, creationStep]
  · intro hp hv hl hpoll hm
    unfold lvmCreate
    simp [hp, hv, hl, hpoll, hm, creationStep]

/-- C4 witness: with `vgcreate` failing, the sequence is exactly
`pvcreate` then `vgcreate` and the step fails. -/
theorem lvm_creation_order_witness :
    (lvmCreate envCreateVgFail).2.filter creationStep =
        [.pvcreate, .vgcreate] ∧ (lvmCreate envCreateVgFail).1 = false :=
  (lvm_creation_order envCreateVgFail (by decide) (by decide) (by decide)
      (by decide)).2.2.1 (by decide) (by decide)

/-- C6 (amended): when the scan classifies the table as absent,
`step_fstab` of `Ultima-interactive.py` first makes the timestamped
backup copy and only then writes the new content; the new content is
the old content (terminated with a newline if it was not) followed by a
blank separator line, the identifying comment line and the entry line,
so every pre-existing byte of the file is preserved as a prefix. -/
theorem fstab_absent_backup_then_append (env : FstabEnv)
    (h1 : env.dirSetupOk = true) (h2 : env.fstabIsFile = true)
    (h3 : scanFstab env.content = .absent)
    (h4 : env.backupOk = true) (h5 : env.writeOk = true) :
    (∃ rest, (step_fstab env).ops =
        FOp.backupFstab :: FOp.writeFstab (appendEntry env.content) :: rest) ∧
      appendEntry env.content =
        ensureNl env.content ++
          ("\n" ++ fstabCommentLine ++ "\n" ++ fstabEntryLine ++ "\n") ∧
      (ensureNl env.content = env.content ∨
        ensureNl env.content = env.content ++ "\n") ∧
      (step_fstab env).ok = true := by
  have hstep : step_fstab env =
      mountPhase env [FOp.backupFstab, FOp.writeFstab (appendEntry env.content)] := by
    unfold step_fstab
    simp [h1, h2, h3, h4, h5]
  rcases mountPhase_spec env
      [FOp.backupFstab, FOp.writeFstab (appendEntry env.content)] with ⟨hok, ⟨tail, hops⟩, -⟩
  refine ⟨⟨tail, ?_⟩, rfl, ?_, ?_⟩
  · rw [hstep, hops]
    rfl
  · unfold ensureNl
    by_cases hc : env.content ≠ "" ∧ ¬ pyEndsWith env.content "\n" = true
    · exact Or.inr (by rw [if_pos hc])
    · exact Or.inl (by rw [if_neg hc])
  · rw [hstep]
    exact hok

/-- C6 witness: on a two-line fstab with no managed entry, the step
backs up, appends and succeeds. -/
theorem fstab_absent_backup_then_append_witness :
    (∃ rest, (step_fstab envFstabAbsent).ops =
        FOp.backupFstab ::
          FOp.writeFstab (appendEntry envFstabAbsent.content) :: rest) ∧
      appendEntry envFstabAbsent.content =
        ensureNl envFstabAbsent.content ++
          ("\n" ++ fstabCommentLine ++ "\n" ++ fstabEntryLine ++ "\n") ∧
      (ensureNl envFstabAbsent.content = envFstabAbsent.content ∨
        ensureNl envFstabAbsent.content = envFstabAbsent.content ++ "\n") ∧
      (step_fstab envFstabAbsent).ok = true :=
  fstab_absent_backup_then_append envFstabAbsent (by decide) (by decide)
    (by decide) (by decide) (by decide)

/-- C6 counterexample: the written content is not the old content with
exactly the comment line and the entry line appended — a blank
separator line is inserted first; and the cited revision
`src/Ult-int.py` writes the appended file without making any backup
copy at all. -/
theorem fstab_append_claim_cex :
    appendEntry "# header\n" ≠
        "# header\n" ++ (fstabCommentLine ++ "\n" ++ fstabEntryLine ++ "\n") ∧
      FOp.backupFstab ∉ (UltInt.step_fstab envFstabAbsent).ops ∧
      FOp.writeFstab (UltInt.appendEntry envFstabAbsent.content) ∈
        (UltInt.step_fstab envFstabAbsent).ops := by
  refine ⟨by decide, by decide, by decide⟩

/-- C7 (amended): in `Ultima-interactive.py`, once the entry is written
or confirmed to exist (no conflict), `step_fstab` runs the best-effort
mount phase — it always issues the VG activation — and a failing live
mount is only a warning: the step returns success whatever the mount
outcome, in particular when the mount fails. -/
theorem fstab_mount_failure_nonfatal (env : FstabEnv)
    (h1 : env.dirSetupOk = true) (h2 : env.fstabIsFile = true)
    (h3 : scanFstab env.content ≠ .conflictFound)
    (h4 : env.backupOk = true) (h5 : env.writeOk = true) :
    (step_fstab env).ok = true ∧
      FOp.vgchangeAy ∈ (step_fstab env).ops ∧
      (step_fstab { env with mountOk := false }).ok = true := by
  have key : ∀ e : FstabEnv, e.dirSetupOk = true → e.fstabIsFile = true →
      scanFstab e.content ≠ .conflictFound → e.backupOk = true →
      e.writeOk = true →
      (step_fstab e).ok = true ∧ FOp.vgchangeAy ∈ (step_fstab e).ops := by
    intro e e1 e2 e3 e4 e5
    unfold step_fstab
    cases hscan : scanFstab e.content with
    | conflictFound => exact absurd hscan e3
    | entryFound =>
        rcases mountPhase_spec e [] with ⟨hok, -, hmem⟩
        simp only [e1, e2]
        simpa [hscan] using ⟨hok, hmem⟩
    | absent =>
        rcases mountPhase_spec e
            [FOp.backupFstab, FOp.writeFstab (appendEntry e.content)] with ⟨hok, -, hmem⟩
        simp only [e1, e2]
        simpa [hscan, e4, e5] using ⟨hok, hmem⟩
  rcases key env h1 h2 h3 h4 h5 with ⟨hok, hmem⟩
  refine ⟨hok, hmem, ?_⟩
  exact (key { env with mountOk := false } h1 h2 h3 h4 h5).1

/-- C7 witness: with the live mount failing on an absent-entry table,
the step still succeeds after issuing the VG activation. -/
theorem fstab_mount_failure_nonfatal_witness :
    (step_fstab envFstabMountFail).ok = true ∧
      FOp.vgchangeAy ∈ (step_fstab envFstabMountFail).ops ∧
      (step_fstab { envFstabMountFail with mountOk := false }).ok = true :=
  fstab_mount_failure_nonfatal envFstabMountFail (by decide) (by decide)
    (by decide) (by decide) (by decide)

/-- C7 counterexample: in the cited revision `src/Ult-int.py`, a failed
live mount is fatal: with the entry already present in the table and
the mount failing, `step_fstab` attempts the mount and returns
failure — it aborts the provisioning run because of the failed live
mount. -/
theorem fstab_mount_fatal_cex :
    UltInt.entryExists envUltIntMountFail.content = true ∧
      FOp.mountCmd ∈ (UltInt.step_fstab envUltIntMountFail).ops ∧
      (UltInt.step_fstab envUltIntMountFail).ok = false := by
  refine ⟨by decide, by decide, by decide⟩

end P9Debian
